import Mathlib

/-!
Verification of the request/response normalization layer of an MCP server for the
Shortcut.com API, shallowly embedded from `src/shortcut_client.py` and `src/server.py`.

The embedding models:
* JSON values (`Json`), with `Json.null` standing for Python `None` throughout, since
  Python's `json` module decodes the JSON literal `null` to `None` and the client
  methods return `None` both for HTTP 204 and for in-band "not found" signalling.
* the transport layer as an oracle (`TransportResult`): each invocation of the
  normalizer is given the response the network would produce.  Strings produced by the
  HTTP libraries (`str(e)` of the raised exceptions, JSON-decoder error text) are
  carried as oracle fields of the response, since they are library output the
  repository code merely interpolates into its own messages.
* query parameters and request bodies are not threaded through the embedding: the code
  forwards them to the HTTP library, and they influence only the wire request, which
  the transport oracle abstracts; they never influence the outcome mapping.
-/

/-- JSON values as decoded by Python's `json` module.  `null` models Python `None`;
objects keep field order (Python dicts preserve insertion order). -/
inductive Json where
  | null
  | bool (b : Bool)
  | num (n : Int)
  | str (s : String)
  | arr (elems : List Json)
  | obj (fields : List (String × Json))

/-- Key lookup in a JSON object (Python `d.get(k)`); `none` on non-objects. -/
def Json.lookup (k : String) : Json → Option Json
  | .obj kvs => List.lookup k kvs
  | _ => none

/-- Python's `isinstance(result, dict) and k in result` membership test. -/
def Json.hasKey (k : String) : Json → Bool
  | .obj kvs => kvs.any (fun kv => kv.1 == k)
  | _ => false

/-- The check `isinstance(result, dict) and "error" in result` that every async wrapper
method of `ShortcutClient` applies to the value returned by `_make_request_async`. -/
def isErrorDict (j : Json) : Bool := j.hasKey "error"

/-- Python truthiness of a decoded JSON value, as used by `result or []`,
`if not story:` and `if workflow_state_id:` in the source. -/
def pyTruthy : Json → Bool
  | .null => false
  | .bool b => b
  | .num n => !(n == 0)
  | .str s => !(s == "")
  | .arr xs => !xs.isEmpty
  | .obj kvs => !kvs.isEmpty

/-- Semantics of the list comprehension
`[StorySummary.model_validate(story).model_dump() for story in stories]` inside a
`try` block: each element is validated in order and the first raised validation error
aborts the whole comprehension. -/
def mapExcept (f : Json → Except String Json) : List Json → Except String (List Json)
  | [] => .ok []
  | x :: xs =>
    match f x with
    | .error e => .error e
    | .ok y =>
      match mapExcept f xs with
      | .error e => .error e
      | .ok ys => .ok (y :: ys)

/-- Python `endpoint.lstrip('/')` (shortcut_client.py lines 52 and 106): remove every
leading `'/'` character. -/
def lstripSlash (s : String) : String := String.mk (s.data.dropWhile (fun c => c == '/'))

/-- Python `method.upper()` for the ASCII method names compared against. -/
def pyUpper (s : String) : String := String.mk (s.data.map Char.toUpper)

/-- The URL-building rule `f"{self.base_url}/{endpoint.lstrip('/')}"`, identical at
shortcut_client.py line 52 (blocking) and line 106 (non-blocking). -/
def buildUrl (base endpoint : String) : String := base ++ "/" ++ lstripSlash endpoint

/-- The method dispatch chain `if method.upper() == "GET" ... elif ... "DELETE"`:
a method is supported exactly when its uppercasing is one of the four verbs. -/
def isSupportedMethod (m : String) : Bool :=
  pyUpper m == "GET" || pyUpper m == "POST" || pyUpper m == "PUT" || pyUpper m == "DELETE"

/-- `config.SHORTCUT_API_BASE_URL` (config.py line 23); `ShortcutClient.__init__`
always sets `self.base_url` to this constant. -/
def SHORTCUT_API_BASE_URL : String := "https://api.app.shortcut.com/api/v3"

/-- The fixed header dict built in `ShortcutClient.__init__` and passed unchanged to
every request in both variants. -/
def clientHeaders (api_token : String) : List (String × String) :=
  [("Content-Type", "application/json"), ("Shortcut-Token", api_token)]

/-- One HTTP response as observed by the client.  `body` is the JSON-parse oracle for
`text` (`some j` exactly when `response.json()` succeeds with `j`).  The three string
fields are oracles for library-produced exception text that the repository code
interpolates: `statusErrSync` is `str(e)` of the `requests.HTTPError` raised by
`raise_for_status`, `statusErrAsync` is `str(e)` of the `httpx.HTTPStatusError`, and
`parseErr` is `str(e)` of the JSON decode error when `body = none`. -/
structure HttpResponse where
  status : Nat
  text : String
  body : Option Json
  statusErrSync : String
  statusErrAsync : String
  parseErr : String

/-- What the network produces for one outbound request: a response, or a
connection-level failure whose `str(e)` is `msg`. -/
inductive TransportResult where
  | resp (r : HttpResponse)
  | connError (msg : String)

/-- Result of the blocking `_make_request`: a returned value (with `Json.null` for
Python `None`), or an exception escaping the function.  `raisedValueError` is the
uncaught `raise ValueError(...)` of line 68 (the `except` clause catches only
`requests.exceptions.RequestException`); `raisedException` is the
`raise Exception(f"Error making request to Shortcut API: {str(e)}")` of line 86.
Both raise sites construct the exception from a message string alone. -/
inductive SyncOutcome where
  | success (payload : Json)
  | raisedValueError (msg : String)
  | raisedException (msg : String)

/-- One run of the blocking `_make_request`: the URL and headers it sets, whether an
outbound network request was issued, and its outcome. -/
structure SyncRun where
  url : String
  headers : List (String × String)
  networkCall : Bool
  outcome : SyncOutcome

/-- One run of the non-blocking `_make_request_async`: the function catches every
`Exception` raised in its `try` block and always returns a value, so its result is a
plain `Json` (`Json.null` for Python `None`); failures are encoded in-band as dicts
containing an `"error"` key. -/
structure AsyncRun where
  url : String
  headers : List (String × String)
  networkCall : Bool
  result : Json

/-- Outcome mapping of the `try`/`except` body of the blocking `_make_request`
(shortcut_client.py lines 54-86), given the transport result of the one outbound
request: `response.raise_for_status()` raises `requests.HTTPError` exactly for
statuses 400-599 (line 70); HTTP 204 returns `None` (lines 72-73); otherwise
`response.json()` is returned (line 75), and a parse failure raises
`requests.exceptions.JSONDecodeError`.  Every `RequestException` (connection error,
HTTP error, JSON decode error) is caught at line 77 and re-raised at line 86 as
`Exception("Error making request to Shortcut API: " + str(e))`; the parsed error
details at lines 79-84 are only logged, never attached to the raised exception. -/
def syncOutcomeOf (tr : TransportResult) : SyncOutcome :=
  match tr with
  | .connError msg => .raisedException ("Error making request to Shortcut API: " ++ msg)
  | .resp r =>
    if 400 ≤ r.status ∧ r.status < 600 then
      .raisedException ("Error making request to Shortcut API: " ++ r.statusErrSync)
    else if r.status == 204 then
      .success .null
    else
      match r.body with
      | some j => .success j
      | none => .raisedException ("Error making request to Shortcut API: " ++ r.parseErr)

/-- The blocking `ShortcutClient._make_request` (shortcut_client.py lines 34-86):
build the URL (line 52); dispatch on `method.upper()` (lines 55-68), raising
`ValueError` before any network call for an unsupported method — the `except` clause
catches only `requests.exceptions.RequestException`, so the `ValueError` escapes;
for a supported method, issue exactly one request and map its result with
`syncOutcomeOf`. -/
def make_request (api_token method endpoint : String) (tr : TransportResult) : SyncRun :=
  if isSupportedMethod method then
    { url := buildUrl SHORTCUT_API_BASE_URL endpoint,
      headers := clientHeaders api_token,
      networkCall := true,
      outcome := syncOutcomeOf tr }
  else
    { url := buildUrl SHORTCUT_API_BASE_URL endpoint,
      headers := clientHeaders api_token,
      networkCall := false,
      outcome := .raisedValueError ("Unsupported HTTP method: " ++ method) }

/-- Result mapping of the non-blocking `_make_request_async` body (shortcut_client.py
lines 108-144), given the transport result: `raise_for_status` on `httpx` raises
`HTTPStatusError` for every non-2xx status (line 125), handled at lines 132-140 —
the error body is parsed as JSON for the `"details"` field, falling back to
`{"raw_response": e.response.text}` when parsing raises `ValueError`.  HTTP 204
returns `None` (lines 127-128); a 2xx body is parsed at line 130.  Every other
exception — connection errors and the JSON decode error on a 2xx body — is caught by
the generic handler at lines 142-144 and becomes
`{"error": "Unexpected error: " + str(e)}`. -/
def asyncResultOf (tr : TransportResult) : Json :=
  match tr with
  | .connError msg => .obj [("error", .str ("Unexpected error: " ++ msg))]
  | .resp r =>
    if 200 ≤ r.status ∧ r.status < 300 then
      if r.status == 204 then
        .null
      else
        match r.body with
        | some j => j
        | none => .obj [("error", .str ("Unexpected error: " ++ r.parseErr))]
    else
      match r.body with
      | some j => .obj [("error", .str r.statusErrAsync), ("details", j)]
      | none => .obj [("error", .str r.statusErrAsync),
                      ("details", .obj [("raw_response", .str r.text)])]

/-- The non-blocking `ShortcutClient._make_request_async` (shortcut_client.py lines
88-144): identical URL construction (line 106) and headers; the `ValueError` for an
unsupported method (line 123) is raised before any network call and caught by the
generic `except Exception` handler of line 142, so it comes back in-band as
`{"error": "Unexpected error: Unsupported HTTP method: ..."}`; for a supported
method, issue exactly one request and map its result with `asyncResultOf`. -/
def make_request_async (api_token method endpoint : String) (tr : TransportResult) : AsyncRun :=
  if isSupportedMethod method then
    { url := buildUrl SHORTCUT_API_BASE_URL endpoint,
      headers := clientHeaders api_token,
      networkCall := true,
      result := asyncResultOf tr }
  else
    { url := buildUrl SHORTCUT_API_BASE_URL endpoint,
      headers := clientHeaders api_token,
      networkCall := false,
      result := .obj [("error", .str ("Unexpected error: Unsupported HTTP method: " ++ method))] }

/-! Async wrapper methods of `ShortcutClient` (shortcut_client.py lines 357-548).
Each forwards to `_make_request_async` and applies the in-band error check
`isinstance(result, dict) and "error" in result`.  Arguments that only shape the
request body are omitted, as the transport oracle abstracts the wire request. -/

/-- `ShortcutClient.get_stories_async` (lines 357-370): an error dict becomes `[]`,
otherwise `result or []`. -/
def get_stories_async (api_token : String) (tr : TransportResult) : Json :=
  let result := (make_request_async api_token "GET" "stories" tr).result
  if isErrorDict result then .arr []
  else if pyTruthy result then result else .arr []

/-- `ShortcutClient.get_story_by_id_async` (lines 389-402): an error dict becomes
`None`, otherwise the result is passed through. -/
def get_story_by_id_async (api_token : String) (story_id : Int) (tr : TransportResult) : Json :=
  let result := (make_request_async api_token "GET" ("stories/" ++ toString story_id) tr).result
  if isErrorDict result then .null else result

/-- `ShortcutClient.create_story_async` (lines 404-417). -/
def create_story_async (api_token : String) (tr : TransportResult) : Json :=
  let result := (make_request_async api_token "POST" "stories" tr).result
  if isErrorDict result then .null else result

/-- `ShortcutClient.update_story_async` (lines 419-433). -/
def update_story_async (api_token : String) (story_id : Int) (tr : TransportResult) : Json :=
  let result := (make_request_async api_token "PUT" ("stories/" ++ toString story_id) tr).result
  if isErrorDict result then .null else result

/-- `ShortcutClient.add_comment_async` (lines 435-450). -/
def add_comment_async (api_token : String) (story_id : Int) (tr : TransportResult) : Json :=
  let result := (make_request_async api_token "POST"
      ("stories/" ++ toString story_id ++ "/comments") tr).result
  if isErrorDict result then .null else result

/-- `ShortcutClient.list_epics_async` (lines 489-502). -/
def list_epics_async (api_token : String) (tr : TransportResult) : Json :=
  let result := (make_request_async api_token "GET" "epics" tr).result
  if isErrorDict result then .arr []
  else if pyTruthy result then result else .arr []

/-- `ShortcutClient.create_epic_async` (lines 504-517). -/
def create_epic_async (api_token : String) (tr : TransportResult) : Json :=
  let result := (make_request_async api_token "POST" "epics" tr).result
  if isErrorDict result then .null else result

/-- `ShortcutClient.get_epic_async` (lines 519-532). -/
def get_epic_async (api_token : String) (epic_id : Int) (tr : TransportResult) : Json :=
  let result := (make_request_async api_token "GET" ("epics/" ++ toString epic_id) tr).result
  if isErrorDict result then .null else result

/-- `ShortcutClient.update_epic_async` (lines 534-548). -/
def update_epic_async (api_token : String) (epic_id : Int) (tr : TransportResult) : Json :=
  let result := (make_request_async api_token "PUT" ("epics/" ++ toString epic_id) tr).result
  if isErrorDict result then .null else result

/-! Tool handlers of `server.py`.  Each returns a JSON string built with
`json.dumps`; the embedding keeps the JSON value handed to `json.dumps`
(serialization is a library step that preserves the value).  Pydantic validation
(`StorySummary.model_validate(...).model_dump()`) is an injected oracle
`validate : Json → Except String Json`, where `Except.error e` models a raised
validation error with text `e`. -/

/-- Result of one tool handler: the JSON value of the returned string, or an
exception escaping the handler. -/
inductive ToolResult where
  | json (j : Json)
  | raised (msg : String)

/-- The `try`-wrapped formatting loop shared by `list_stories` and
`get_stories_resource` (server.py lines 123-129 and 185-191). -/
def formatStories (validate : Json → Except String Json) (stories : List Json) : ToolResult :=
  match mapExcept validate stories with
  | .ok js => .json (.arr js)
  | .error e => .json (.obj [("error", .str ("Error formatting stories: " ++ e))])

/-- The `list_stories` tool (server.py lines 153-191): fetch via
`get_stories_async`, apply `stories[:limit] if limit > 0 else stories` (line 183),
then format.  A truthy non-array payload would reach Python list slicing and
iteration and raise a dynamic type error; that path, unreachable for the
array-valued stories endpoint, is modeled as `ToolResult.raised`. -/
def list_stories (api_token : String) (limit : Int)
    (validate : Json → Except String Json) (tr : TransportResult) : ToolResult :=
  let stories := get_stories_async api_token tr
  match stories with
  | .arr xs =>
    let xs := if limit > 0 then xs.take limit.toNat else xs
    formatStories validate xs
  | _ => .raised "TypeError"

/-- The `get_stories_resource` resource (server.py lines 98-129): same pipeline as
`list_stories`, duplicated in the source, with the same limit rule at line 121. -/
def get_stories_resource (api_token : String) (limit : Int)
    (validate : Json → Except String Json) (tr : TransportResult) : ToolResult :=
  let stories := get_stories_async api_token tr
  match stories with
  | .arr xs =>
    let xs := if limit > 0 then xs.take limit.toNat else xs
    formatStories validate xs
  | _ => .raised "TypeError"

/-- The `get_story_details` tool (server.py lines 218-240): `if not story:` returns
the not-found error object, otherwise the validated story (validation failure maps to
an error object). -/
def get_story_details (api_token : String) (story_id : Int)
    (validate : Json → Except String Json) (tr : TransportResult) : ToolResult :=
  let story := get_story_by_id_async api_token story_id tr
  if !pyTruthy story then
    .json (.obj [("error", .str ("Story with ID " ++ toString story_id ++ " not found"))])
  else
    match validate story with
    | .ok j => .json j
    | .error e => .json (.obj [("error", .str ("Error formatting story: " ++ e))])

/-- The `list_epics` tool (server.py lines 455-478): `if epics is None` returns the
empty list (a dead guard, since `list_epics_async` never returns `None`), otherwise
the epics payload is dumped as-is.  The `len(epics)` logging call, which could itself
raise for an unsized payload, is not modeled. -/
def list_epics (api_token : String) (tr : TransportResult) : ToolResult :=
  match list_epics_async api_token tr with
  | .null => .json (.arr [])
  | epics => .json epics

/-! Spec-side definitions, written from the claims' words, for the refinement and
correction statements. -/

/-- The details value attached to a blocking-variant outcome.  Both raise sites of
`_make_request` (`raise ValueError(f"...")` at line 68 and `raise Exception(f"...")`
at line 86) construct the exception from a message f-string alone; the parsed error
body at lines 79-84 is only logged.  No outcome of the blocking variant therefore
carries a structured details value. -/
def SyncOutcome.detailsCarried : SyncOutcome → Option Json
  | .success _ => none
  | .raisedValueError _ => none
  | .raisedException _ => none

/-- Modelled from the claim's words (refinement spec side): a blocking outcome and a
non-blocking result are equivalent when both succeed with the same payload, or both
signal failure with the same attached details.  Message text is deliberately ignored
(any wording counts as equivalent); since the blocking variant's exceptions carry no
details, failure equivalence requires the non-blocking error dict to carry none
either. -/
def equivalentOutcomes (s : SyncOutcome) (a : Json) : Prop :=
  match s with
  | .success p => a = p
  | .raisedValueError _ => isErrorDict a = true ∧ a.lookup "details" = none
  | .raisedException _ => isErrorDict a = true ∧ a.lookup "details" = none

/-- The transports on which the non-blocking normalizer signals failure: a connection
error, a non-2xx response, or a 2xx (non-204) response whose body does not parse. -/
def failureTransport (tr : TransportResult) : Prop :=
  match tr with
  | .connError _ => True
  | .resp r => ¬(200 ≤ r.status ∧ r.status < 300) ∨ (r.status ≠ 204 ∧ r.body = none)

/-! Helper lemmas shared by the claim theorems. -/

theorem head?_dropWhile_not {α : Type} (p : α → Bool) (l : List α) (c : α)
    (h : (l.dropWhile p).head? = some c) : p c = false := by
  induction l with
  | nil => simp at h
  | cons a l ih =>
    by_cases hp : p a
    · rw [List.dropWhile_cons_of_pos hp] at h
      exact ih h
    · rw [List.dropWhile_cons_of_neg hp] at h
      simp only [List.head?_cons, Option.some.injEq] at h
      rw [← h]
      simpa using hp

theorem mapExcept_ok (xs : List Json) : mapExcept Except.ok xs = Except.ok xs := by
  induction xs with
  | nil => rfl
  | cons x xs ih => simp [mapExcept, ih]

theorem make_request_url (api_token method endpoint : String) (tr : TransportResult) :
    (make_request api_token method endpoint tr).url = buildUrl SHORTCUT_API_BASE_URL endpoint := by
  unfold make_request
  split <;> rfl

theorem make_request_async_url (api_token method endpoint : String) (tr : TransportResult) :
    (make_request_async api_token method endpoint tr).url
      = buildUrl SHORTCUT_API_BASE_URL endpoint := by
  unfold make_request_async
  split <;> rfl

theorem make_request_async_result (api_token method endpoint : String)
    (tr : TransportResult) (h : isSupportedMethod method = true) :
    (make_request_async api_token method endpoint tr).result = asyncResultOf tr := by
  simp [make_request_async, h]

theorem make_request_outcome (api_token method endpoint : String)
    (tr : TransportResult) (h : isSupportedMethod method = true) :
    (make_request api_token method endpoint tr).outcome = syncOutcomeOf tr := by
  simp [make_request, h]

/-! Claim C1. -/

/-- C1 counterexample: the URL-building rule of both `_make_request` (line 52) and
`_make_request_async` (line 106) strips leading slashes from the endpoint but leaves
a trailing slash on the base untouched, so a base ending in `/` joined with
`/stories` yields a double slash, not the single slash the claim asserts. -/
theorem c1_trailing_slash_counterexample :
    buildUrl "https://api.app.shortcut.com/api/v3/" "/stories"
        = "https://api.app.shortcut.com/api/v3//stories"
    ∧ "https://api.app.shortcut.com/api/v3//stories"
        ≠ "https://api.app.shortcut.com/api/v3/stories" := by
  constructor
  · rfl
  · decide

/-- C1 (amended): for every base URL not ending in a slash — in particular the
configured `SHORTCUT_API_BASE_URL`, which has no trailing slash — the URL built by
both variants is the base, exactly one separating slash, and the endpoint with all
leading slashes removed, so exactly one slash separates them regardless of leading
slashes on the endpoint; joining the configured base with `"/stories"` yields
`".../v3/stories"`.  A trailing slash on the base, however, is not collapsed
(`c1_trailing_slash_counterexample`). -/
theorem c1_url_single_slash (api_token method endpoint : String) (tr : TransportResult)
    (base e : String) (_hbase : base.data.getLast? ≠ some '/') :
    (buildUrl base e).data = base.data ++ '/' :: (lstripSlash e).data
    ∧ (lstripSlash e).data.head? ≠ some '/'
    ∧ (make_request api_token method endpoint tr).url
        = buildUrl SHORTCUT_API_BASE_URL endpoint
    ∧ (make_request_async api_token method endpoint tr).url
        = buildUrl SHORTCUT_API_BASE_URL endpoint
    ∧ SHORTCUT_API_BASE_URL.data.getLast? ≠ some '/'
    ∧ buildUrl SHORTCUT_API_BASE_URL "/stories"
        = "https://api.app.shortcut.com/api/v3/stories" := by
  refine ⟨?_, ?_, make_request_url .., make_request_async_url .., by decide, by rfl⟩
  · show (base ++ "/" ++ lstripSlash e).data = _
    rw [String.data_append, String.data_append, List.append_assoc]
    rfl
  · intro h
    have := head?_dropWhile_not (fun c => c == '/') e.data '/' h
    simp at this

/-- C1 witness: the amended theorem applied at the configured base (no trailing
slash) and an endpoint with a leading slash. -/
theorem c1_url_single_slash_witness :
    (buildUrl "https://api.app.shortcut.com/api/v3" "/stories").data
        = "https://api.app.shortcut.com/api/v3".data ++ '/' :: (lstripSlash "/stories").data
    ∧ (lstripSlash "/stories").data.head? ≠ some '/' :=
  ⟨(c1_url_single_slash "tok" "GET" "stories" (.connError "e")
      "https://api.app.shortcut.com/api/v3" "/stories" (by decide)).1,
   (c1_url_single_slash "tok" "GET" "stories" (.connError "e")
      "https://api.app.shortcut.com/api/v3" "/stories" (by decide)).2.1⟩

/-! Claim C7. -/

/-- C7: for every unsupported method value, both variants issue no network call and
yield the configuration-error outcome — the blocking variant lets the
`ValueError("Unsupported HTTP method: ...")` escape, the non-blocking variant
returns it in-band wrapped by its generic handler — and neither defaults to GET. -/
theorem c7_unsupported_method_fails_fast (api_token method endpoint : String)
    (tr : TransportResult) (h : isSupportedMethod method = false) :
    (make_request api_token method endpoint tr).networkCall = false
    ∧ (make_request api_token method endpoint tr).outcome
        = .raisedValueError ("Unsupported HTTP method: " ++ method)
    ∧ (make_request_async api_token method endpoint tr).networkCall = false
    ∧ (make_request_async api_token method endpoint tr).result
        = .obj [("error", .str ("Unexpected error: Unsupported HTTP method: " ++ method))] := by
  simp [make_request, make_request_async, h]

/-- C7 witness: the method `"PATCH"` is unsupported and fails fast in both variants. -/
theorem c7_witness :
    isSupportedMethod "PATCH" = false
    ∧ (make_request "tok" "PATCH" "stories" (.connError "down")).networkCall = false
    ∧ (make_request_async "tok" "PATCH" "stories" (.connError "down")).networkCall = false :=
  ⟨by decide,
   (c7_unsupported_method_fails_fast "tok" "PATCH" "stories" (.connError "down") (by decide)).1,
   (c7_unsupported_method_fails_fast "tok" "PATCH" "stories" (.connError "down") (by decide)).2.2.1⟩

/-! Claim C8. -/

/-- C8: an HTTP 204 response yields `Success(absent)` — Python `None`, here
`Json.null` — in both variants, and JSON parsing is never attempted: the outcome is
the same for every body text and every value of the parse oracle. -/
theorem c8_204_success_absent (api_token method endpoint : String)
    (txt : String) (body : Option Json) (m1 m2 m3 : String)
    (h : isSupportedMethod method = true) :
    (make_request api_token method endpoint
        (.resp ⟨204, txt, body, m1, m2, m3⟩)).outcome = .success .null
    ∧ (make_request_async api_token method endpoint
        (.resp ⟨204, txt, body, m1, m2, m3⟩)).result = .null := by
  constructor
  · rw [make_request_outcome _ _ _ _ h]
    simp [syncOutcomeOf]
  · rw [make_request_async_result _ _ _ _ h]
    simp [asyncResultOf]

/-- C8 witness: a concrete 204 response whose body would not even parse as JSON. -/
theorem c8_witness :
    (make_request "tok" "DELETE" "epics/99"
        (.resp ⟨204, "garbage", none, "e1", "e2", "e3"⟩)).outcome = .success .null
    ∧ (make_request_async "tok" "DELETE" "epics/99"
        (.resp ⟨204, "garbage", none, "e1", "e2", "e3"⟩)).result = .null :=
  c8_204_success_absent "tok" "DELETE" "epics/99" "garbage" none "e1" "e2" "e3" (by decide)

/-! Claim C4. -/

theorem asyncResultOf_failure (tr : TransportResult) (h : failureTransport tr) :
    isErrorDict (asyncResultOf tr) = true := by
  cases tr with
  | connError m => simp [asyncResultOf, isErrorDict, Json.hasKey]
  | resp r =>
    rcases h with h2 | ⟨h204, hbody⟩
    · simp only [asyncResultOf]
      rw [if_neg h2]
      cases r.body <;> simp [isErrorDict, Json.hasKey]
    · by_cases h2 : 200 ≤ r.status ∧ r.status < 300
      · simp only [asyncResultOf]
        rw [if_pos h2, hbody]
        simp [h204, isErrorDict, Json.hasKey]
      · simp only [asyncResultOf]
        rw [if_neg h2, hbody]
        simp [isErrorDict, Json.hasKey]

/-- C4: the non-blocking `_make_request_async` never raises past its boundary — it
is a total function into `Json` because every exception of its `try` body is caught
(lines 132-144) — and on every failure mode (unsupported method, connection error,
non-2xx status, or JSON parse error on a 2xx body) the returned value is a dict
containing an `"error"` key. -/
theorem c4_async_never_raises (api_token method endpoint : String) (tr : TransportResult)
    (h : isSupportedMethod method = false ∨ failureTransport tr) :
    isErrorDict (make_request_async api_token method endpoint tr).result = true := by
  by_cases hm : isSupportedMethod method
  · rcases h with h | h
    · rw [hm] at h
      exact absurd h (by simp)
    · rw [make_request_async_result _ _ _ _ hm]
      exact asyncResultOf_failure tr h
  · simp only [Bool.not_eq_true] at hm
    simp [make_request_async, hm, isErrorDict, Json.hasKey]

/-- C4 witness: a connection failure comes back as an error dict. -/
theorem c4_witness :
    isErrorDict (make_request_async "tok" "GET" "stories"
        (.connError "Connection refused")).result = true :=
  c4_async_never_raises "tok" "GET" "stories" (.connError "Connection refused")
    (Or.inr trivial)

/-! Claim C5. -/

/-- C5 counterexample: for a 404 response with JSON body `{"message": "not found"}`,
the blocking variant does not produce a Failure whose details equal the parsed body —
it raises `Exception("Error making request to Shortcut API: " + str(e))`, an
exception built from a message string alone, carrying no details (the parsed body is
only logged at shortcut_client.py lines 79-84). -/
theorem c5_blocking_details_counterexample :
    (make_request "tok" "GET" "stories/404"
        (.resp ⟨404, "\x7b\"message\": \"not found\"\x7d",
                some (.obj [("message", .str "not found")]),
                "404 Client Error: Not Found for url: https://api.app.shortcut.com/api/v3/stories/404",
                "Client error 404 Not Found", "parse error"⟩)).outcome
      = .raisedException "Error making request to Shortcut API: 404 Client Error: Not Found for url: https://api.app.shortcut.com/api/v3/stories/404"
    ∧ SyncOutcome.detailsCarried
        ((make_request "tok" "GET" "stories/404"
          (.resp ⟨404, "\x7b\"message\": \"not found\"\x7d",
                  some (.obj [("message", .str "not found")]),
                  "404 Client Error: Not Found for url: https://api.app.shortcut.com/api/v3/stories/404",
                  "Client error 404 Not Found", "parse error"⟩)).outcome)
        = none
    ∧ (none : Option Json) ≠ some (.obj [("message", .str "not found")]) := by
  refine ⟨rfl, rfl, ?_⟩
  simp

/-- C5 (amended): in the non-blocking variant, every non-2xx response yields a
Failure dict whose `"details"` equal the parsed JSON error body when it parses, and
`{"raw_response": text}` (key `raw_response`, not `rawResponse`) otherwise.  The
blocking variant instead raises an exception carrying only a message; no details are
attached to its outcome. -/
theorem c5_failure_details (api_token method endpoint : String) (r : HttpResponse)
    (hm : isSupportedMethod method = true)
    (h2 : ¬(200 ≤ r.status ∧ r.status < 300)) :
    (make_request_async api_token method endpoint (.resp r)).result
      = .obj [("error", .str r.statusErrAsync),
              ("details", r.body.getD (.obj [("raw_response", .str r.text)]))]
    ∧ ((make_request_async api_token method endpoint (.resp r)).result).lookup "details"
      = some (r.body.getD (.obj [("raw_response", .str r.text)]))
    ∧ (400 ≤ r.status ∧ r.status < 600 →
        (make_request api_token method endpoint (.resp r)).outcome
          = .raisedException ("Error making request to Shortcut API: " ++ r.statusErrSync)
        ∧ SyncOutcome.detailsCarried
            ((make_request api_token method endpoint (.resp r)).outcome) = none) := by
  have hres : (make_request_async api_token method endpoint (.resp r)).result
      = .obj [("error", .str r.statusErrAsync),
              ("details", r.body.getD (.obj [("raw_response", .str r.text)]))] := by
    rw [make_request_async_result _ _ _ _ hm]
    simp only [asyncResultOf]
    rw [if_neg h2]
    cases r.body <;> rfl
  refine ⟨hres, ?_, ?_⟩
  · rw [hres]
    simp [Json.lookup, List.lookup]
  · intro h45
    rw [make_request_outcome _ _ _ _ hm]
    simp only [syncOutcomeOf]
    rw [if_pos h45]
    exact ⟨rfl, rfl⟩

/-- C5 witness: a 404 with a JSON body and a 500 with a non-JSON body, both through
the amended theorem. -/
theorem c5_failure_details_witness :
    ((make_request_async "tok" "GET" "stories/404"
        (.resp ⟨404, "nf", some (.obj [("message", .str "not found")]), "s", "a", "p"⟩)).result).lookup "details"
      = some (.obj [("message", .str "not found")])
    ∧ ((make_request_async "tok" "GET" "stories"
        (.resp ⟨500, "oops", none, "s", "a", "p"⟩)).result).lookup "details"
      = some (.obj [("raw_response", .str "oops")])
    ∧ (make_request "tok" "GET" "stories/404"
        (.resp ⟨404, "nf", some (.obj [("message", .str "not found")]), "s", "a", "p"⟩)).outcome
      = .raisedException "Error making request to Shortcut API: s" :=
  ⟨(c5_failure_details "tok" "GET" "stories/404"
      ⟨404, "nf", some (.obj [("message", .str "not found")]), "s", "a", "p"⟩
      (by decide) (by simp)).2.1,
   (c5_failure_details "tok" "GET" "stories"
      ⟨500, "oops", none, "s", "a", "p"⟩ (by decide) (by simp)).2.1,
   ((c5_failure_details "tok" "GET" "stories/404"
      ⟨404, "nf", some (.obj [("message", .str "not found")]), "s", "a", "p"⟩
      (by decide) (by simp)).2.2 (by simp)).1⟩

/-! Claim C6. -/

/-- C6 counterexample: for a 200 response whose body `"oops"` is not valid JSON, the
non-blocking variant returns `{"error": "Unexpected error: <decoder message>"}` —
a Failure with no `"details"` at all, so the raw response text is not carried — and
the blocking variant raises an exception whose message is the decoder's, likewise
without the raw text as details. -/
theorem c6_malformed_2xx_counterexample :
    (make_request_async "tok" "GET" "stories"
        (.resp ⟨200, "oops", none, "e1", "e2",
                "Expecting value: line 1 column 1 (char 0)"⟩)).result
      = .obj [("error", .str "Unexpected error: Expecting value: line 1 column 1 (char 0)")]
    ∧ ((make_request_async "tok" "GET" "stories"
        (.resp ⟨200, "oops", none, "e1", "e2",
                "Expecting value: line 1 column 1 (char 0)"⟩)).result).lookup "details"
      = none
    ∧ (make_request "tok" "GET" "stories"
        (.resp ⟨200, "oops", none, "e1", "e2",
                "Expecting value: line 1 column 1 (char 0)"⟩)).outcome
      = .raisedException "Error making request to Shortcut API: Expecting value: line 1 column 1 (char 0)" :=
  ⟨rfl, rfl, rfl⟩

/-- C6 (amended): a 2xx (non-204) response whose body is not valid JSON is never
returned as a success in either variant — the non-blocking variant returns the
generic-handler Failure dict `{"error": "Unexpected error: " + str(e)}` and the
blocking variant raises — but, contrary to the claim, neither outcome carries the
raw response text as details: the non-blocking Failure has no `"details"` field. -/
theorem c6_malformed_2xx_failure (api_token method endpoint : String) (r : HttpResponse)
    (hm : isSupportedMethod method = true)
    (h2 : 200 ≤ r.status ∧ r.status < 300) (h204 : r.status ≠ 204) (hb : r.body = none) :
    (make_request_async api_token method endpoint (.resp r)).result
      = .obj [("error", .str ("Unexpected error: " ++ r.parseErr))]
    ∧ isErrorDict (make_request_async api_token method endpoint (.resp r)).result = true
    ∧ ((make_request_async api_token method endpoint (.resp r)).result).lookup "details" = none
    ∧ (make_request api_token method endpoint (.resp r)).outcome
      = .raisedException ("Error making request to Shortcut API: " ++ r.parseErr) := by
  have hres : (make_request_async api_token method endpoint (.resp r)).result
      = .obj [("error", .str ("Unexpected error: " ++ r.parseErr))] := by
    rw [make_request_async_result _ _ _ _ hm]
    simp only [asyncResultOf]
    rw [if_pos h2]
    have : (r.status == 204) = false := by
      simpa using h204
    rw [this, hb]
    rfl
  refine ⟨hres, ?_, ?_, ?_⟩
  · rw [hres]; rfl
  · rw [hres]; rfl
  · rw [make_request_outcome _ _ _ _ hm]
    simp only [syncOutcomeOf]
    have h45 : ¬(400 ≤ r.status ∧ r.status < 600) := by omega
    rw [if_neg h45]
    have : (r.status == 204) = false := by
      simpa using h204
    rw [this, hb]
    rfl

/-- C6 witness: a concrete 200 response with an unparseable body. -/
theorem c6_malformed_2xx_failure_witness :
    isErrorDict (make_request_async "tok" "GET" "projects"
        (.resp ⟨200, "not json", none, "s", "a", "p"⟩)).result = true
    ∧ (make_request "tok" "GET" "projects"
        (.resp ⟨200, "not json", none, "s", "a", "p"⟩)).outcome
      = .raisedException "Error making request to Shortcut API: p" :=
  ⟨(c6_malformed_2xx_failure "tok" "GET" "projects"
      ⟨200, "not json", none, "s", "a", "p"⟩ (by decide) (by simp) (by simp) rfl).2.1,
   (c6_malformed_2xx_failure "tok" "GET" "projects"
      ⟨200, "not json", none, "s", "a", "p"⟩ (by decide) (by simp) (by simp) rfl).2.2.2⟩

/-! Claim C2. -/

theorem make_request_headers (api_token method endpoint : String) (tr : TransportResult) :
    (make_request api_token method endpoint tr).headers = clientHeaders api_token := by
  unfold make_request
  split <;> rfl

theorem make_request_async_headers (api_token method endpoint : String) (tr : TransportResult) :
    (make_request_async api_token method endpoint tr).headers = clientHeaders api_token := by
  unfold make_request_async
  split <;> rfl

theorem equiv_unsupported (api_token method endpoint : String) (tr : TransportResult)
    (h : isSupportedMethod method = false) :
    equivalentOutcomes (make_request api_token method endpoint tr).outcome
      (make_request_async api_token method endpoint tr).result := by
  simp only [make_request, make_request_async, h, Bool.false_eq_true, if_false]
  exact ⟨rfl, rfl⟩

/-- C2 counterexample: at a 404 response with JSON body `{"message": "not found"}`,
the variants' outcomes are not equivalent — the non-blocking variant returns a
Failure dict carrying the parsed body as `"details"`, while the blocking variant
raises an exception carrying a message only — so the claimed input-by-input
equivalence of outcomes fails even when message wording is ignored. -/
theorem c2_outcome_divergence_counterexample :
    (make_request "tok" "GET" "stories"
        (.resp ⟨404, "nf", some (.obj [("message", .str "not found")]),
                "s404", "a404", "p"⟩)).outcome
      = .raisedException "Error making request to Shortcut API: s404"
    ∧ (make_request_async "tok" "GET" "stories"
        (.resp ⟨404, "nf", some (.obj [("message", .str "not found")]),
                "s404", "a404", "p"⟩)).result
      = .obj [("error", .str "a404"), ("details", .obj [("message", .str "not found")])]
    ∧ ¬ equivalentOutcomes
        (make_request "tok" "GET" "stories"
          (.resp ⟨404, "nf", some (.obj [("message", .str "not found")]),
                  "s404", "a404", "p"⟩)).outcome
        (make_request_async "tok" "GET" "stories"
          (.resp ⟨404, "nf", some (.obj [("message", .str "not found")]),
                  "s404", "a404", "p"⟩)).result :=
  ⟨rfl, rfl, fun h => Option.noConfusion h.2⟩

/-- C2 (amended): both variants build identical URLs and set identical headers, and
their outcomes are equivalent (same success payload, or failures neither of which
carries details) for unsupported methods, for connection failures, and for every 2xx
response — including 204 and unparseable-body cases.  But for every 4xx/5xx response
the outcomes are not equivalent: the non-blocking variant returns a Failure dict
carrying `"details"` while the blocking variant raises a details-free exception, so
the claimed full input-by-input equivalence does not hold. -/
theorem c2_variants_refinement (api_token method endpoint : String) (tr : TransportResult) :
    (make_request api_token method endpoint tr).url
      = (make_request_async api_token method endpoint tr).url
    ∧ (make_request api_token method endpoint tr).headers
      = (make_request_async api_token method endpoint tr).headers
    ∧ (isSupportedMethod method = false →
        equivalentOutcomes (make_request api_token method endpoint tr).outcome
          (make_request_async api_token method endpoint tr).result)
    ∧ (∀ m, tr = .connError m →
        equivalentOutcomes (make_request api_token method endpoint tr).outcome
          (make_request_async api_token method endpoint tr).result)
    ∧ (∀ r, tr = .resp r → 200 ≤ r.status → r.status < 300 →
        equivalentOutcomes (make_request api_token method endpoint tr).outcome
          (make_request_async api_token method endpoint tr).result)
    ∧ (∀ r, tr = .resp r → isSupportedMethod method = true →
        400 ≤ r.status → r.status < 600 →
        ¬ equivalentOutcomes (make_request api_token method endpoint tr).outcome
          (make_request_async api_token method endpoint tr).result) := by
  refine ⟨?_, ?_, ?_, ?_, ?_, ?_⟩
  · rw [make_request_url, make_request_async_url]
  · rw [make_request_headers, make_request_async_headers]
  · intro h
    exact equiv_unsupported api_token method endpoint tr h
  · intro m hm_eq
    subst hm_eq
    by_cases hm : isSupportedMethod method
    · rw [make_request_outcome _ _ _ _ hm, make_request_async_result _ _ _ _ hm]
      exact ⟨rfl, rfl⟩
    · exact equiv_unsupported api_token method endpoint _ (by simpa using hm)
  · intro r hr h200 h300
    subst hr
    by_cases hm : isSupportedMethod method
    · rw [make_request_outcome _ _ _ _ hm, make_request_async_result _ _ _ _ hm]
      have h45 : ¬(400 ≤ r.status ∧ r.status < 600) := by omega
      by_cases h204 : r.status = 204
      · have e1 : syncOutcomeOf (.resp r) = .success .null := by
          simp [syncOutcomeOf, h204]
        have e2 : asyncResultOf (.resp r) = .null := by
          simp [asyncResultOf, h204]
        rw [e1, e2]
        exact rfl
      · have hb : (r.status == 204) = false := by simpa using h204
        cases hbody : r.body with
        | some j =>
          have e1 : syncOutcomeOf (.resp r) = .success j := by
            simp [syncOutcomeOf, h45, hb, hbody]
          have e2 : asyncResultOf (.resp r) = j := by
            simp [asyncResultOf, h200, h300, hb, hbody]
          rw [e1, e2]
          exact rfl
        | none =>
          have e1 : syncOutcomeOf (.resp r)
              = .raisedException ("Error making request to Shortcut API: " ++ r.parseErr) := by
            simp [syncOutcomeOf, h45, hb, hbody]
          have e2 : asyncResultOf (.resp r)
              = .obj [("error", .str ("Unexpected error: " ++ r.parseErr))] := by
            simp [asyncResultOf, h200, h300, hb, hbody]
          rw [e1, e2]
          exact ⟨rfl, rfl⟩
    · exact equiv_unsupported api_token method endpoint _ (by simpa using hm)
  · intro r hr hm h400 h600
    subst hr
    rw [make_request_outcome _ _ _ _ hm, make_request_async_result _ _ _ _ hm]
    have h23 : ¬(200 ≤ r.status ∧ r.status < 300) := by omega
    cases hbody : r.body with
    | some j =>
      have e2 : asyncResultOf (.resp r)
          = .obj [("error", .str r.statusErrAsync), ("details", j)] := by
        simp [asyncResultOf, h23, hbody]
      rw [e2]
      have e1 : syncOutcomeOf (.resp r)
          = .raisedException ("Error making request to Shortcut API: " ++ r.statusErrSync) := by
        simp [syncOutcomeOf, h400, h600]
      rw [e1]
      exact fun h => Option.noConfusion h.2
    | none =>
      have e2 : asyncResultOf (.resp r)
          = .obj [("error", .str r.statusErrAsync),
                  ("details", .obj [("raw_response", .str r.text)])] := by
        simp [asyncResultOf, h23, hbody]
      rw [e2]
      have e1 : syncOutcomeOf (.resp r)
          = .raisedException ("Error making request to Shortcut API: " ++ r.statusErrSync) := by
        simp [syncOutcomeOf, h400, h600]
      rw [e1]
      exact fun h => Option.noConfusion h.2

/-- C2 witness: at a concrete 200 success the variants agree, and at a concrete 404
they are inequivalent. -/
theorem c2_variants_refinement_witness :
    equivalentOutcomes
      (make_request "tok" "GET" "stories"
        (.resp ⟨200, "ok", some (.arr [.num 1]), "s", "a", "p"⟩)).outcome
      (make_request_async "tok" "GET" "stories"
        (.resp ⟨200, "ok", some (.arr [.num 1]), "s", "a", "p"⟩)).result
    ∧ ¬ equivalentOutcomes
      (make_request "tok" "GET" "stories"
        (.resp ⟨404, "nf", some (.obj [("message", .str "not found")]), "s", "a", "p"⟩)).outcome
      (make_request_async "tok" "GET" "stories"
        (.resp ⟨404, "nf", some (.obj [("message", .str "not found")]), "s", "a", "p"⟩)).result :=
  ⟨(c2_variants_refinement "tok" "GET" "stories"
      (.resp ⟨200, "ok", some (.arr [.num 1]), "s", "a", "p"⟩)).2.2.2.2.1
      ⟨200, "ok", some (.arr [.num 1]), "s", "a", "p"⟩ rfl (by simp) (by simp),
   (c2_variants_refinement "tok" "GET" "stories"
      (.resp ⟨404, "nf", some (.obj [("message", .str "not found")]), "s", "a", "p"⟩)).2.2.2.2.2
      ⟨404, "nf", some (.obj [("message", .str "not found")]), "s", "a", "p"⟩ rfl (by decide)
      (by simp) (by simp)⟩

/-! Claim C9. -/

theorem asyncResultOf_2xx (r : HttpResponse) (j : Json) (h200 : 200 ≤ r.status)
    (h300 : r.status < 300) (h204 : r.status ≠ 204) (hbody : r.body = some j) :
    asyncResultOf (.resp r) = j := by
  have hb : (r.status == 204) = false := by simpa using h204
  simp [asyncResultOf, h200, h300, hb, hbody]

/-- C9: because `_make_request_async` signals failure in-band as a dict with an
`"error"` key, every async wrapper method classifies a 2xx (non-204) response whose
JSON payload is an object containing an `"error"` key as a failure — the
list-returning wrappers yield `[]` and the detail wrappers yield `None` — exactly the
values they yield under a genuine transport failure, making the two cases
indistinguishable to their callers. -/
theorem c9_error_payload_indistinguishable (api_token : String) (story_id epic_id : Int)
    (r : HttpResponse) (kvs : List (String × Json))
    (h200 : 200 ≤ r.status) (h300 : r.status < 300) (h204 : r.status ≠ 204)
    (hbody : r.body = some (.obj kvs)) (herr : Json.hasKey "error" (.obj kvs) = true)
    (tr' : TransportResult) (hfail : failureTransport tr') :
    get_stories_async api_token (.resp r) = .arr []
    ∧ get_story_by_id_async api_token story_id (.resp r) = .null
    ∧ create_story_async api_token (.resp r) = .null
    ∧ update_story_async api_token story_id (.resp r) = .null
    ∧ add_comment_async api_token story_id (.resp r) = .null
    ∧ list_epics_async api_token (.resp r) = .arr []
    ∧ create_epic_async api_token (.resp r) = .null
    ∧ get_epic_async api_token epic_id (.resp r) = .null
    ∧ update_epic_async api_token epic_id (.resp r) = .null
    ∧ get_stories_async api_token tr' = .arr []
    ∧ get_story_by_id_async api_token story_id tr' = .null := by
  have hx : asyncResultOf (.resp r) = .obj kvs :=
    asyncResultOf_2xx r _ h200 h300 h204 hbody
  have he : isErrorDict (.obj kvs) = true := herr
  have hf := asyncResultOf_failure tr' hfail
  refine ⟨?_, ?_, ?_, ?_, ?_, ?_, ?_, ?_, ?_, ?_, ?_⟩
  · unfold get_stories_async
    rw [make_request_async_result _ _ _ _ (by decide), hx]
    simp [he]
  · unfold get_story_by_id_async
    rw [make_request_async_result _ _ _ _ (by decide), hx]
    simp [he]
  · unfold create_story_async
    rw [make_request_async_result _ _ _ _ (by decide), hx]
    simp [he]
  · unfold update_story_async
    rw [make_request_async_result _ _ _ _ (by decide), hx]
    simp [he]
  · unfold add_comment_async
    rw [make_request_async_result _ _ _ _ (by decide), hx]
    simp [he]
  · unfold list_epics_async
    rw [make_request_async_result _ _ _ _ (by decide), hx]
    simp [he]
  · unfold create_epic_async
    rw [make_request_async_result _ _ _ _ (by decide), hx]
    simp [he]
  · unfold get_epic_async
    rw [make_request_async_result _ _ _ _ (by decide), hx]
    simp [he]
  · unfold update_epic_async
    rw [make_request_async_result _ _ _ _ (by decide), hx]
    simp [he]
  · unfold get_stories_async
    rw [make_request_async_result _ _ _ _ (by decide)]
    simp [hf]
  · unfold get_story_by_id_async
    rw [make_request_async_result _ _ _ _ (by decide)]
    simp [hf]

/-- C9 witness: a 200 response whose payload is `{"error": "boom"}` produces the
same observable values as a connection failure. -/
theorem c9_witness :
    get_stories_async "tok" (.resp ⟨200, "e", some (.obj [("error", .str "boom")]), "s", "a", "p"⟩)
      = .arr []
    ∧ get_story_by_id_async "tok" 7
        (.resp ⟨200, "e", some (.obj [("error", .str "boom")]), "s", "a", "p"⟩) = .null
    ∧ get_stories_async "tok" (.connError "down") = .arr []
    ∧ get_story_by_id_async "tok" 7 (.connError "down") = .null :=
  ⟨(c9_error_payload_indistinguishable "tok" 7 9
      ⟨200, "e", some (.obj [("error", .str "boom")]), "s", "a", "p"⟩
      [("error", .str "boom")] (by simp) (by simp) (by simp) rfl (by decide)
      (.connError "down") trivial).1,
   (c9_error_payload_indistinguishable "tok" 7 9
      ⟨200, "e", some (.obj [("error", .str "boom")]), "s", "a", "p"⟩
      [("error", .str "boom")] (by simp) (by simp) (by simp) rfl (by decide)
      (.connError "down") trivial).2.1,
   (c9_error_payload_indistinguishable "tok" 7 9
      ⟨200, "e", some (.obj [("error", .str "boom")]), "s", "a", "p"⟩
      [("error", .str "boom")] (by simp) (by simp) (by simp) rfl (by decide)
      (.connError "down") trivial).2.2.2.2.2.2.2.2.2.1,
   (c9_error_payload_indistinguishable "tok" 7 9
      ⟨200, "e", some (.obj [("error", .str "boom")]), "s", "a", "p"⟩
      [("error", .str "boom")] (by simp) (by simp) (by simp) rfl (by decide)
      (.connError "down") trivial).2.2.2.2.2.2.2.2.2.2⟩

/-! Claim C3. -/

/-- C3 counterexample: when the request normalizer yields a Failure (here a 500
response), the `list_stories` tool returns the JSON value `[]` — an empty-success
payload containing no error field — silently substituting an empty list for the
failed call. -/
theorem c3_swallowed_failure_counterexample :
    list_stories "tok" 25 Except.ok (.resp ⟨500, "err", none, "s", "a", "p"⟩)
      = .json (.arr [])
    ∧ Json.hasKey "error" (.arr []) = false :=
  ⟨rfl, rfl⟩

/-- C3 (amended): the tool layer is inconsistent about surfacing Failures.  On every
failing transport, the list-returning handlers `list_stories` and `list_epics` and
the `get_stories_resource` resource return the empty JSON list — an error-free
empty-success payload — because their wrappers map error dicts to `[]`; whereas the
detail handler `get_story_details` does surface the failure as a JSON object with an
`"error"` field. -/
theorem c3_failure_surfacing_inconsistent (api_token : String) (story_id lim : Int)
    (validate : Json → Except String Json) (tr : TransportResult)
    (hfail : failureTransport tr) :
    list_stories api_token lim validate tr = .json (.arr [])
    ∧ get_stories_resource api_token lim validate tr = .json (.arr [])
    ∧ list_epics api_token tr = .json (.arr [])
    ∧ Json.hasKey "error" (.arr []) = false
    ∧ get_story_details api_token story_id validate tr
      = .json (.obj [("error", .str ("Story with ID " ++ toString story_id ++ " not found"))]) := by
  have hf := asyncResultOf_failure tr hfail
  have hstories : get_stories_async api_token tr = .arr [] := by
    unfold get_stories_async
    rw [make_request_async_result _ _ _ _ (by decide)]
    simp [hf]
  have hepics : list_epics_async api_token tr = .arr [] := by
    unfold list_epics_async
    rw [make_request_async_result _ _ _ _ (by decide)]
    simp [hf]
  have hstory : get_story_by_id_async api_token story_id tr = .null := by
    unfold get_story_by_id_async
    rw [make_request_async_result _ _ _ _ (by decide)]
    simp [hf]
  refine ⟨?_, ?_, ?_, rfl, ?_⟩
  · unfold list_stories
    rw [hstories]
    simp [formatStories, mapExcept]
  · unfold get_stories_resource
    rw [hstories]
    simp [formatStories, mapExcept]
  · unfold list_epics
    rw [hepics]
  · unfold get_story_details
    rw [hstory]
    rfl

/-- C3 witness: a concrete connection failure is swallowed by `list_stories` and
surfaced by `get_story_details`. -/
theorem c3_failure_surfacing_inconsistent_witness :
    list_stories "tok" 25 Except.ok (.connError "down") = .json (.arr [])
    ∧ get_story_details "tok" 42 Except.ok (.connError "down")
      = .json (.obj [("error", .str "Story with ID 42 not found")]) :=
  ⟨(c3_failure_surfacing_inconsistent "tok" 42 25 Except.ok (.connError "down") trivial).1,
   (c3_failure_surfacing_inconsistent "tok" 42 25 Except.ok (.connError "down") trivial).2.2.2.2⟩

/-! Claim C10. -/

theorem get_stories_async_2xx_arr (api_token : String) (r : HttpResponse) (xs : List Json)
    (h200 : 200 ≤ r.status) (h300 : r.status < 300) (h204 : r.status ≠ 204)
    (hbody : r.body = some (.arr xs)) :
    get_stories_async api_token (.resp r) = .arr xs := by
  unfold get_stories_async
  rw [make_request_async_result _ _ _ _ (by decide),
      asyncResultOf_2xx r _ h200 h300 h204 hbody]
  cases xs with
  | nil => rfl
  | cons a as => rfl

/-- C10: in `list_stories` and `get_stories_resource`, the `limit` parameter
truncates the fetched story list to its first `limit` elements exactly when
`limit > 0`; for `limit = 0` or any negative `limit`, the full fetched list is
returned untruncated — `limit ≤ 0` means no limit, not zero results.  Stated with
the always-succeeding validation oracle so the handler output is the story list
itself. -/
theorem c10_limit_semantics (api_token txt m1 m2 m3 : String) (xs : List Json)
    (lim : Int) (status : Nat)
    (h200 : 200 ≤ status) (h300 : status < 300) (h204 : status ≠ 204) :
    (0 < lim →
      list_stories api_token lim Except.ok (.resp ⟨status, txt, some (.arr xs), m1, m2, m3⟩)
        = .json (.arr (xs.take lim.toNat))
      ∧ get_stories_resource api_token lim Except.ok (.resp ⟨status, txt, some (.arr xs), m1, m2, m3⟩)
        = .json (.arr (xs.take lim.toNat)))
    ∧ (lim ≤ 0 →
      list_stories api_token lim Except.ok (.resp ⟨status, txt, some (.arr xs), m1, m2, m3⟩)
        = .json (.arr xs)
      ∧ get_stories_resource api_token lim Except.ok (.resp ⟨status, txt, some (.arr xs), m1, m2, m3⟩)
        = .json (.arr xs)) := by
  have hf : get_stories_async api_token (.resp ⟨status, txt, some (.arr xs), m1, m2, m3⟩)
      = .arr xs :=
    get_stories_async_2xx_arr api_token _ xs h200 h300 h204 rfl
  constructor
  · intro hl
    constructor
    · unfold list_stories
      rw [hf]
      simp [hl, mapExcept_ok, formatStories]
    · unfold get_stories_resource
      rw [hf]
      simp [hl, mapExcept_ok, formatStories]
  · intro hl
    have hl' : ¬(lim > 0) := by omega
    constructor
    · unfold list_stories
      rw [hf]
      simp [hl', mapExcept_ok, formatStories]
    · unfold get_stories_resource
      rw [hf]
      simp [hl', mapExcept_ok, formatStories]

/-- C10 witness: with three fetched stories, `limit = 2` truncates to the first two
and `limit = -1` returns all three. -/
theorem c10_limit_semantics_witness :
    list_stories "tok" 2 Except.ok
      (.resp ⟨200, "ok", some (.arr [.num 1, .num 2, .num 3]), "s", "a", "p"⟩)
      = .json (.arr [.num 1, .num 2])
    ∧ list_stories "tok" (-1) Except.ok
      (.resp ⟨200, "ok", some (.arr [.num 1, .num 2, .num 3]), "s", "a", "p"⟩)
      = .json (.arr [.num 1, .num 2, .num 3]) :=
  ⟨Eq.trans
    (((c10_limit_semantics "tok" "ok" "s" "a" "p" [.num 1, .num 2, .num 3] 2 200
        (by simp) (by simp) (by simp)).1 (by norm_num)).1) rfl,
   ((c10_limit_semantics "tok" "ok" "s" "a" "p" [.num 1, .num 2, .num 3] (-1) 200
        (by simp) (by simp) (by simp)).2 (by norm_num)).1⟩
